import Mathlib

/-!
Verification of the `affectiva` Emotion-API client (`src/affectiva/api.py`).

The client is shallowly embedded: every remote operation of `EmotionAPI` becomes a pure
Lean function parameterised by an HTTP oracle `http : Req → HttpResp` that supplies the
remote service's response to each request the code issues.  Side effects are made
explicit:

* the sequence of HTTP requests and local file open/close operations an operation
  performs is returned as a `List Event` trace, in program order;
* local files written by downloads are an association list `FS` from path to content;
* a Python exception is an `Except` error value; `requests.Response.raise_for_status`
  raises exactly for status codes 400–599, which `raiseForStatus` mirrors.

JSON documents received from the service are embedded as structures holding exactly the
keys the client reads (`content_type`, `file_name`, `media`, `self`, …); parsed response
bodies the client does not inspect stay opaque strings.
-/

namespace Affectiva

/-! ## Environment and credential resolution (`EmotionAPI.__init__`, api.py lines 26–43) -/

/-- `EAAS_USER_ENV_VAR = 'AFFECTIVA_API_USER'` (api.py line 20). -/
def EAAS_USER_ENV_VAR : String := "AFFECTIVA_API_USER"

/-- `EAAS_PASS_ENV_VAR = 'AFFECTIVA_API_PASSWORD'` (api.py line 21). -/
def EAAS_PASS_ENV_VAR : String := "AFFECTIVA_API_PASSWORD"

/-- The process environment, an association list of variable names to values. -/
structure Env where
  vars : List (String × String)
deriving DecidableEq, Repr

/-- `os.environ.get(k, None)`: the value of variable `k`, or `none` when unset. -/
def Env.get (e : Env) (k : String) : Option String :=
  (e.vars.find? (fun p => p.1 == k)).map (fun p => p.2)

/-- Python truthiness of an optional string: `None` and `''` are falsy, every other
string is truthy. -/
def pyTruthy : Option String → Bool
  | none => false
  | some s => !(s == "")

/-- One credential as resolved on api.py lines 35–36:
`user if user else os.environ.get(self.EAAS_USER_ENV_VAR, None)`.
The explicit argument is used when truthy (a non-empty string); only otherwise is the
environment variable read. -/
def resolveCred (explicitArg : Option String) (env : Env) (envVar : String) : Option String :=
  if pyTruthy explicitArg then explicitArg else env.get envVar

/-- The credential pair stored on the client (`self._user`, `self._password`). -/
structure Creds where
  user : String
  password : String
deriving DecidableEq, Repr

/-- The two `ValueError`s `__init__` can raise (api.py lines 38–41). -/
inductive InitError where
  /-- `ValueError("No username provided.")` -/
  | noUsername
  /-- `ValueError("No password provided.")` -/
  | noPassword
deriving DecidableEq, Repr

/-- Credential resolution and validation of `EmotionAPI.__init__` (api.py lines 35–41):
resolve each credential from the explicit argument or the environment, then raise if the
resolved user is `None`, then if the resolved password is `None`.  (Service discovery,
line 43, follows and does not touch the credentials.) -/
def init (user password : Option String) (env : Env) : Except InitError Creds :=
  let u := resolveCred user env EAAS_USER_ENV_VAR
  let p := resolveCred password env EAAS_PASS_ENV_VAR
  match u with
  | none => .error .noUsername
  | some su =>
    match p with
    | none => .error .noPassword
    | some sp => .ok { user := su, password := sp }

/-! ## HTTP model -/

/-- A multipart form-file entry as built for `requests`' `files=` argument:
field name, optional file name, payload (the path of the opened local file, or a literal
value for the `(None, value)` plain-field form), optional MIME type. -/
structure MultipartFile where
  field : String
  filename : Option String
  payload : String
  mimetype : Option String
deriving DecidableEq, Repr

/-- An HTTP request the client can issue.  Every authenticated request carries the
resolved `Creds`; `data` is the form-encoded body. -/
inductive Req where
  | get (url : String) (auth : Creds)
  | post (url : String) (auth : Creds) (data : List (String × String))
  | postMultipart (url : String) (auth : Creds) (files : List MultipartFile)
      (data : List (String × String))
  | putMultipart (url : String) (auth : Creds) (files : List MultipartFile)
  | patch (url : String) (auth : Creds) (data : List (String × String))
  | delete (url : String) (auth : Creds)
deriving DecidableEq, Repr

/-- An HTTP response: status code and (raw or JSON) body. -/
structure HttpResp where
  status : Nat
  body : String
deriving DecidableEq, Repr

/-- `requests.Response.raise_for_status` raises `HTTPError` exactly for client-error
(4xx) and server-error (5xx) status codes. -/
def isHttpError (status : Nat) : Bool :=
  decide (400 ≤ status) && decide (status < 600)

/-- `resp.raise_for_status()`: error carrying the status for 4xx/5xx, no-op otherwise. -/
def raiseForStatus (r : HttpResp) : Except Nat Unit :=
  if isHttpError r.status then .error r.status else .ok ()

/-- One observable step of an operation: an HTTP request, or a local-file open/close. -/
inductive Event where
  /-- `open(path, 'rb')` -/
  | openRead (path : String)
  /-- `open(path, 'wb')` — creates the file, or truncates it to zero bytes -/
  | openWrite (path : String)
  /-- the file handle for `path` is closed -/
  | closeFile (path : String)
  /-- an HTTP request is issued -/
  | http (r : Req)
deriving DecidableEq, Repr

/-! ## `update_job` (api.py lines 86–100) -/

/-- The PATCH body built on api.py lines 95–97: start from `data = {}` and insert
`entry_job[name]` only when `job_name is not None`. -/
def update_job_body (job_name : Option String) : List (String × String) :=
  match job_name with
  | none => []
  | some n => [("entry_job[name]", n)]

/-- The request `update_job` sends (api.py line 98):
`requests.patch(job_url, auth=self._auth, data=data, headers=ACCEPT_JSON)`. -/
def update_job_request (auth : Creds) (job_url : String) (job_name : Option String) : Req :=
  .patch job_url auth (update_job_body job_name)

/-! ## Representations, downloads and results (api.py lines 102–160) -/

/-- A representation JSON object, holding the keys the client reads:
`content_type`, `file_name`, `media` (download URL) and `self` (update URL). -/
structure Representation where
  content_type : String
  file_name : String
  media : String
  self : String
deriving DecidableEq, Repr

/-- The part of a job JSON object the download/result operations read:
`job_json['result']['representations']` (api.py lines 135 and 154).  A `Job` value is
the parsed response of `query_job(job_url)`. -/
structure Job where
  result_representations : List Representation
deriving DecidableEq, Repr

/-- The local filesystem visible to downloads: an association list from path to file
content; a path not present does not exist. -/
abbrev FS := List (String × String)

/-- Write `content` to `path`, creating the file or replacing its previous content. -/
def fsWrite (fs : FS) (path content : String) : FS :=
  (path, content) :: fs.filter (fun p => !(p.1 == path))

/-- The content of the file at `path`, or `none` when no such file exists. -/
def fsRead (fs : FS) (path : String) : Option String :=
  (fs.find? (fun p => p.1 == path)).map (fun p => p.2)

/-- `os.path.join(output_dir, file_name)` for a directory path without a trailing
separator. -/
def osPathJoin (dir name : String) : String := dir ++ "/" ++ name

/-- Outcome of `download_representation`: the filesystem after the call, the trace of
events in program order, and the returned local path or the raised status error. -/
structure DlOutcome where
  fs : FS
  trace : List Event
  result : Except Nat String
deriving Repr

/-- `EmotionAPI.download_representation` (api.py lines 102–120): compute
`local_path = os.path.join(output_dir, file_name)`, `open(local_path, 'wb')` — which
creates or truncates the local file — and only then GET the representation's `media`
URL with authentication; on a 4xx/5xx response `raise_for_status` raises inside the
`with` block, so the handle is closed and the file is left behind empty; otherwise the
response bytes are written and the local path returned. -/
def download_representation (auth : Creds) (rep : Representation) (output_dir : String)
    (http : Req → HttpResp) (fs : FS) : DlOutcome :=
  let local_path := osPathJoin output_dir rep.file_name
  let fs1 := fsWrite fs local_path ""
  let resp := http (.get rep.media auth)
  match raiseForStatus resp with
  | .error s =>
    { fs := fs1,
      trace := [.openWrite local_path, .http (.get rep.media auth), .closeFile local_path],
      result := .error s }
  | .ok _ =>
    { fs := fsWrite fs1 local_path resp.body,
      trace := [.openWrite local_path, .http (.get rep.media auth), .closeFile local_path],
      result := .ok local_path }

/-- Python's `str` of a list of strings, as interpolated into the `ValueError` message on
api.py line 142: each element in `repr` quotes, comma-separated, in brackets.  (The
`repr` escaping of quotes and backslashes inside an element is not modelled; media
content types contain neither.) -/
def pyStrList (xs : List String) : String :=
  "[" ++ String.intercalate ", " (xs.map (fun s => "\x27" ++ s ++ "\x27")) ++ "]"

/-- The message of the `ValueError` raised on api.py lines 141–142:
`"Could not match content_type '%s'.\nAvailable content-types: %s" % (content_type,
str(all_content_types))`. -/
def notFoundMessage (content_type : String) (available : List String) : String :=
  "Could not match content_type \x27" ++ content_type ++ "\x27.\n" ++
    "Available content-types: " ++ pyStrList available

/-- An error raised by `download_results`: a propagated HTTP status error, or the
`ValueError` with its message. -/
inductive DRError where
  | httpError (status : Nat)
  | valueError (msg : String)
deriving DecidableEq, Repr

/-- Outcome of `download_results`. -/
structure DROutcome where
  fs : FS
  trace : List Event
  result : Except DRError String
deriving Repr

/-- The `for` loop of api.py lines 136–138: return the first representation whose
`content_type` equals the requested one, scanning in source order. -/
def findRep (reps : List Representation) (ct : String) : Option Representation :=
  match reps with
  | [] => none
  | r :: rest => if r.content_type == ct then some r else findRep rest ct

/-- `EmotionAPI.download_results` (api.py lines 122–142), applied to the parsed job
`job` returned by `query_job(job_url)`: scan `job_json['result']['representations']`
for the first entry matching `content_type` and delegate it to
`download_representation`; when none matches, raise the `ValueError` whose message
lists the content types of all representations, in source order. -/
def download_results (auth : Creds) (job : Job) (content_type output_dir : String)
    (http : Req → HttpResp) (fs : FS) : DROutcome :=
  match findRep job.result_representations content_type with
  | some r =>
    let out := download_representation auth r output_dir http fs
    { fs := out.fs, trace := out.trace, result := out.result.mapError .httpError }
  | none =>
    { fs := fs, trace := [],
      result := .error (.valueError (notFoundMessage content_type
        (job.result_representations.map (fun x => x.content_type)))) }

/-- The fixed session-metrics content type scanned for on api.py line 155. -/
def sessionCT : String := "application/vnd.affectiva.session.v0+json"

/-- The value `results` returns: the initial `metrics = []` when no representation
matched, or the parsed JSON body of a matching representation's media. -/
inductive MetricsValue where
  /-- the initial `metrics = []` of api.py line 152 -/
  | emptyList
  /-- `media_resp.json()` of a matching representation (api.py line 159) -/
  | json (body : String)
deriving DecidableEq, Repr

/-- The `for` loop of `EmotionAPI.results` (api.py lines 154–159) with accumulator
`metrics`: for every representation whose `content_type` equals the session-metrics
type, GET its `media` URL with authentication, raise on a 4xx/5xx status, and overwrite
`metrics` with the parsed body. -/
def resultsLoop (auth : Creds) (http : Req → HttpResp) :
    List Representation → MetricsValue → List Event × Except Nat MetricsValue
  | [], metrics => ([], .ok metrics)
  | r :: rest, metrics =>
    if r.content_type == sessionCT then
      let resp := http (.get r.media auth)
      match raiseForStatus resp with
      | .error s => ([.http (.get r.media auth)], .error s)
      | .ok _ =>
        let rec_out := resultsLoop auth http rest (.json resp.body)
        (.http (.get r.media auth) :: rec_out.1, rec_out.2)
    else resultsLoop auth http rest metrics

/-- `EmotionAPI.results` (api.py lines 144–160), applied to the parsed job `job`
returned by `query_job(job_url)`: run the loop starting from `metrics = []` and return
the final `metrics`. -/
def results (auth : Creds) (job : Job) (http : Req → HttpResp) :
    List Event × Except Nat MetricsValue :=
  resultsLoop auth http job.result_representations .emptyList

/-! ## Annotations (api.py lines 173–191) -/

/-- The part of an entry (job) JSON object the annotation and representation operations
read: `entry['annotations']` (the annotation-collection URL) and
`entry['representation_self']`. -/
structure Entry where
  annotations : String
  representation_self : String
deriving DecidableEq, Repr

/-- One item of the input sequence of `add_annotations`: a mapping with keys `source`,
`key` and `value` (api.py lines 180–183). -/
structure AnnotationItem where
  source : String
  key : String
  value : String
deriving DecidableEq, Repr

/-- The form body POSTed by `add_annotation` (api.py line 175). -/
def annotationPostData (a : AnnotationItem) : List (String × String) :=
  [("annotation[source]", a.source), ("annotation[key]", a.key),
   ("annotation[value]", a.value)]

/-- The request `add_annotation` issues (api.py line 174): POST to
`entry['annotations']` with authentication and the three form fields. -/
def annotationPost (auth : Creds) (entry : Entry) (a : AnnotationItem) : Req :=
  .post entry.annotations auth (annotationPostData a)

/-- `EmotionAPI.add_annotation` (api.py lines 173–177): one POST, `raise_for_status`,
return the parsed body. -/
def add_annotation (auth : Creds) (entry : Entry) (a : AnnotationItem)
    (http : Req → HttpResp) : List Event × Except Nat String :=
  let resp := http (annotationPost auth entry a)
  ([.http (annotationPost auth entry a)],
    match raiseForStatus resp with
    | .error s => .error s
    | .ok _ => .ok resp.body)

/-- `EmotionAPI.add_annotations` (api.py lines 179–183): invoke ` add_annotation` for
each item in order; an exception propagates immediately, so items after the failing one
are never attempted and earlier additions are not rolled back. -/
def add_annotations (auth : Creds) (entry : Entry) (http : Req → HttpResp) :
    List AnnotationItem → List Event × Except Nat Unit
  | [] => ([], .ok ())
  | a :: rest =>
    let first := add_annotation auth entry a http
    match first.2 with
    | .error s => (first.1, .error s)
    | .ok _ =>
      let rest_out := add_annotations auth entry http rest
      (first.1 ++ rest_out.1, rest_out.2)

/-- One annotation as listed by `query_job(entry['annotations'])`, holding the keys
`delete_annotation` reads: `source`, `key` and `self` (its own URL, the DELETE target). -/
structure AnnotationRec where
  source : String
  key : String
  self : String
deriving DecidableEq, Repr

/-- The `for` loop of `EmotionAPI.delete_annotation` (api.py lines 188–191): for every
listed annotation whose `source` and `key` both match, DELETE its `self` URL with
authentication and `raise_for_status`. -/
def delete_annotation_loop (auth : Creds) (source key : String) (http : Req → HttpResp) :
    List AnnotationRec → List Event × Except Nat Unit
  | [] => ([], .ok ())
  | a :: rest =>
    if a.source == source && a.key == key then
      let resp := http (.delete a.self auth)
      match raiseForStatus resp with
      | .error s => ([.http (.delete a.self auth)], .error s)
      | .ok _ =>
        let rest_out := delete_annotation_loop auth source key http rest
        (.http (.delete a.self auth) :: rest_out.1, rest_out.2)
    else delete_annotation_loop auth source key http rest

/-- `EmotionAPI.delete_annotation` (api.py lines 185–191): GET `entry['annotations']`
with authentication to list the existing annotations — `listed` is the parsed body of
that successful query — then run the deletion loop over them. -/
def delete_annotation (auth : Creds) (entry : Entry) (listed : List AnnotationRec)
    (source key : String) (http : Req → HttpResp) : List Event × Except Nat Unit :=
  let loop_out := delete_annotation_loop auth source key http listed
  (.http (.get entry.annotations auth) :: loop_out.1, loop_out.2)

/-! ## Uploads (api.py lines 55–71, 193–228) -/

/-- `os.path.basename` for a POSIX path. -/
def osPathBasename (p : String) : String := (p.splitOn "/").getLastD ""

/-- Python's `with open(path, 'rb') as f: body`: the handle is opened before the block
runs and closed when the block exits — also when the block raises. -/
def withOpen (path : String) (body : List Event × Except Nat α) :
    List Event × Except Nat α :=
  (Event.openRead path :: body.1 ++ [Event.closeFile path], body.2)

/-- The `files=` mapping of `create_job` (api.py lines 67–68):
`{'entry_job[name]': (None, job_name), 'entry_job[input]':
(os.path.basename(media_path), video)}`, where `video` is the handle opened on
`media_path`. -/
def create_job_files (media_path job_name : String) : List MultipartFile :=
  [{ field := "entry_job[name]", filename := none, payload := job_name, mimetype := none },
   { field := "entry_job[input]", filename := some (osPathBasename media_path),
     payload := media_path, mimetype := none }]

/-- `EmotionAPI.create_job` (api.py lines 55–71): inside `with open(media_path, 'rb')`,
multipart-POST to the job-service URL with the two `entry_job` file fields and
`extra_params` as form data, `raise_for_status`, return the parsed body. -/
def create_job (auth : Creds) (job_url media_path job_name : String)
    (extra_params : List (String × String)) (http : Req → HttpResp) :
    List Event × Except Nat String :=
  withOpen media_path
    (let req := Req.postMultipart job_url auth (create_job_files media_path job_name)
        extra_params
     let resp := http req
     ([Event.http req],
       match raiseForStatus resp with
       | .error s => .error s
       | .ok _ => .ok resp.body))

/-- The `files=` entry `{'media': (media_path, open(media_path, 'rb'), mimetype)}` of
`add_representation` and `update_representation` (api.py lines 208 and 226). -/
def mediaFile (media_path mimetype : String) : MultipartFile :=
  { field := "media", filename := some media_path, payload := media_path,
    mimetype := some mimetype }

/-- `EmotionAPI.add_representation` (api.py lines 193–211): `open(media_path, 'rb')`
appears inline in the `files` dict — there is no `with` block and no `close()` call, so
the method never closes the handle — then multipart-POST to
`entry['representation_self']`, `raise_for_status`, return the parsed body. -/
def add_representation (auth : Creds) (entry : Entry) (media_path mimetype : String)
    (http : Req → HttpResp) : List Event × Except Nat String :=
  let req := Req.postMultipart entry.representation_self auth
      [mediaFile media_path mimetype] []
  let resp := http req
  ([Event.openRead media_path, Event.http req],
    match raiseForStatus resp with
    | .error s => .error s
    | .ok _ => .ok resp.body)

/-- `EmotionAPI.update_representation` (api.py lines 213–228): `open(media_path, 'rb')`
appears inline in the `files` dict — no `with`, no `close()` — then multipart-PUT to
`representation['self']` and `raise_for_status`; nothing is returned. -/
def update_representation (auth : Creds) (rep : Representation)
    (media_path mimetype : String) (http : Req → HttpResp) :
    List Event × Except Nat Unit :=
  let req := Req.putMultipart rep.self auth [mediaFile media_path mimetype]
  let resp := http req
  ([Event.openRead media_path, Event.http req],
    match raiseForStatus resp with
    | .error s => .error s
    | .ok _ => .ok ())

/-! ## Concrete sample values (used by witnesses and counterexamples) -/

/-- The session-metrics representations of a job, in source order: the `filter`
characterising which entries the `results` loop reacts to. -/
def sessionMatches (job : Job) : List Representation :=
  job.result_representations.filter (fun r => r.content_type == sessionCT)

/-- Sample credentials. -/
def creds0 : Creds := { user := "u", password := "p" }

/-- An oracle answering every request with 200. -/
def httpOk : Req → HttpResp := fun _ => { status := 200, body := "BODY" }

/-- An oracle answering every request with 503 Service Unavailable. -/
def http503 : Req → HttpResp := fun _ => { status := 503, body := "unavailable" }

/-- An oracle answering every GET with 200 and a body naming the URL. -/
def httpByUrl : Req → HttpResp
  | .get url _ => { status := 200, body := "body:" ++ url }
  | _ => { status := 200, body := "ok" }

/-- A CSV representation. -/
def repCsv : Representation :=
  { content_type := "application/csv", file_name := "out.csv",
    media := "https://media/csv", self := "https://rep/csv" }

/-- A first session-metrics representation. -/
def repSes1 : Representation :=
  { content_type := sessionCT, file_name := "m1.json",
    media := "https://media/s1", self := "https://rep/s1" }

/-- A second session-metrics representation with a different media URL. -/
def repSes2 : Representation :=
  { content_type := sessionCT, file_name := "m2.json",
    media := "https://media/s2", self := "https://rep/s2" }

/-- A sample entry. -/
def entry0 : Entry :=
  { annotations := "https://entry/annotations", representation_self := "https://entry/reps" }

/-- Sample input items for `add_annotations`. -/
def item1 : AnnotationItem := { source := "s1", key := "k1", value := "v1" }

/-- Second sample item — the one whose POST the sample oracle rejects. -/
def item2 : AnnotationItem := { source := "s2", key := "k2", value := "v2" }

/-- Third sample item. -/
def item3 : AnnotationItem := { source := "s3", key := "k3", value := "v3" }

/-- An oracle failing exactly the POST of `item2` with 500 and answering everything else
with 201. -/
def httpFailSecond : Req → HttpResp := fun r =>
  if r = annotationPost creds0 entry0 item2 then { status := 500, body := "boom" }
  else { status := 201, body := "created" }

/-- A listed annotation matching source `src` and key `k`. -/
def annA : AnnotationRec := { source := "src", key := "k", self := "https://ann/1" }

/-- A listed annotation with a different source. -/
def annB : AnnotationRec := { source := "other", key := "k", self := "https://ann/2" }

/-- Another listed annotation matching source `src` and key `k`. -/
def annC : AnnotationRec := { source := "src", key := "k", self := "https://ann/3" }

/-! ## Claim theorems: construction -/

/-- **C1.** With non-empty explicit credentials the stored credentials are exactly the
explicit pair, and the result is the same for any two environments: the two credential
environment variables are never consulted (the conditional on api.py lines 35–36
evaluates `os.environ.get` only when the explicit argument is falsy). -/
theorem init_explicit_credentials_ignore_env (u p : String) (hu : u ≠ "") (hp : p ≠ "")
    (env1 env2 : Env) :
    init (some u) (some p) env1 = init (some u) (some p) env2 ∧
    init (some u) (some p) env1 = .ok { user := u, password := p } := by
  constructor <;> simp [init, resolveCred, pyTruthy, hu, hp]

theorem init_explicit_credentials_ignore_env_witness :
    ("alice" : String) ≠ "" ∧ ("s3cret" : String) ≠ "" ∧
    (init (some "alice") (some "s3cret")
        { vars := [(EAAS_USER_ENV_VAR, "envuser"), (EAAS_PASS_ENV_VAR, "envpass")] } =
      init (some "alice") (some "s3cret") { vars := [] } ∧
     init (some "alice") (some "s3cret")
        { vars := [(EAAS_USER_ENV_VAR, "envuser"), (EAAS_PASS_ENV_VAR, "envpass")] } =
      .ok { user := "alice", password := "s3cret" }) :=
  ⟨by decide, by decide,
   init_explicit_credentials_ignore_env "alice" "s3cret" (by decide) (by decide)
     { vars := [(EAAS_USER_ENV_VAR, "envuser"), (EAAS_PASS_ENV_VAR, "envpass")] }
     { vars := [] }⟩

/-- **C2 (counterexample).** The claim says construction fails whenever a resolved
credential "is missing or is not a non-empty string".  With no explicit arguments and
both environment variables set to the empty string, each resolved credential is the
empty string — not a non-empty string — yet `__init__` raises nothing: its checks on
api.py lines 38–41 only compare against `None`. -/
theorem init_accepts_empty_env_credential :
    init none none { vars := [(EAAS_USER_ENV_VAR, ""), (EAAS_PASS_ENV_VAR, "")] } =
      .ok { user := "", password := "" } := by
  rfl

/-- **C2 (amended).** Construction fails (with one of the two `ValueError`s) exactly when
a resolved credential is absent (`None`): in particular when both are absent and when
exactly one of the two is present.  An empty-string environment value counts as present
and is accepted; "non-empty string" is not checked. -/
theorem init_fails_iff_resolved_credential_missing (user password : Option String)
    (env : Env) :
    (∃ e, init user password env = .error e) ↔
      (resolveCred user env EAAS_USER_ENV_VAR = none ∨
       resolveCred password env EAAS_PASS_ENV_VAR = none) := by
  unfold init
  cases hu : resolveCred user env EAAS_USER_ENV_VAR with
  | none => simp
  | some su =>
    cases hp : resolveCred password env EAAS_PASS_ENV_VAR with
    | none => simp
    | some sp => simp

/-! ## Helper lemmas -/

/-- The early-return scan of `download_results` is `List.find?` on the content type. -/
theorem findRep_eq_find (reps : List Representation) (ct : String) :
    findRep reps ct = reps.find? (fun r => r.content_type == ct) := by
  induction reps with
  | nil => simp [findRep]
  | cons r rest ih => cases hr : r.content_type == ct <;> simp [findRep, hr, ih]

/-- When every session-metrics GET in `reps` succeeds, the `results` loop issues exactly
one GET per matching representation, in order, and ends with the parsed body of the last
match — or the accumulator when there is no match. -/
theorem resultsLoop_all_ok (auth : Creds) (http : Req → HttpResp)
    (reps : List Representation) (acc : MetricsValue)
    (h : ∀ r ∈ reps.filter (fun r => r.content_type == sessionCT),
        isHttpError (http (Req.get r.media auth)).status = false) :
    resultsLoop auth http reps acc =
      ((reps.filter (fun r => r.content_type == sessionCT)).map
          (fun r => Event.http (Req.get r.media auth)),
       .ok ((((reps.filter (fun r => r.content_type == sessionCT)).getLast?).map
          (fun l => MetricsValue.json (http (Req.get l.media auth)).body)).getD acc)) := by
  induction reps generalizing acc with
  | nil => simp [resultsLoop]
  | cons r rest ih =>
    cases hr : r.content_type == sessionCT with
    | false =>
      simp only [List.filter_cons, hr, if_false] at h ⊢
      simpa [resultsLoop, hr] using ih acc h
    | true =>
      have hmem : r ∈ (r :: rest).filter (fun x => x.content_type == sessionCT) := by
        simp [List.filter_cons, hr]
      have hokr := h r hmem
      have h' : ∀ x ∈ rest.filter (fun x => x.content_type == sessionCT),
          isHttpError (http (Req.get x.media auth)).status = false := by
        intro x hx
        exact h x (by simp only [List.filter_cons, hr, if_true]; exact List.mem_cons_of_mem _ hx)
      have hrec := ih (MetricsValue.json (http (Req.get r.media auth)).body) h'
      simp only [resultsLoop, hr, raiseForStatus, hokr, Bool.false_eq_true, if_false, hrec,
        List.filter_cons, if_true]
      cases hrf : rest.filter (fun x => x.content_type == sessionCT) with
      | nil => simp
      | cons x xs =>
        simp only [List.getLast?_cons_cons]
        cases hxl : (x :: xs).getLast? with
        | none => simp at hxl
        | some y => simp [hxl]

/-- When every matching DELETE in `listed` succeeds, the `delete_annotation` loop issues
exactly one DELETE per matching annotation, in order, and raises nothing. -/
theorem delete_loop_all_ok (auth : Creds) (source key : String) (http : Req → HttpResp)
    (listed : List AnnotationRec)
    (hok : ∀ a ∈ listed.filter (fun a => a.source == source && a.key == key),
        isHttpError (http (Req.delete a.self auth)).status = false) :
    delete_annotation_loop auth source key http listed =
      ((listed.filter (fun a => a.source == source && a.key == key)).map
          (fun a => Event.http (Req.delete a.self auth)),
       .ok ()) := by
  induction listed with
  | nil => simp [delete_annotation_loop]
  | cons a rest ih =>
    cases ha : a.source == source && a.key == key with
    | false =>
      simp only [List.filter_cons, ha, if_false] at hok ⊢
      simpa [delete_annotation_loop, ha] using ih hok
    | true =>
      have hmem : a ∈ (a :: rest).filter (fun x => x.source == source && x.key == key) := by
        simp [List.filter_cons, ha]
      have hoka := hok a hmem
      have h' : ∀ x ∈ rest.filter (fun x => x.source == source && x.key == key),
          isHttpError (http (Req.delete x.self auth)).status = false := by
        intro x hx
        exact hok x (by simp only [List.filter_cons, ha, if_true]; exact List.mem_cons_of_mem _ hx)
      simp [delete_annotation_loop, ha, raiseForStatus, hoka, ih h', List.filter_cons]

/-! ## Claim theorems: `update_job` -/

/-- **C7.** The PATCH body of `update_job` binds `entry_job[name]` exactly to the given
`job_name` option: the key is present with value `n` when `job_name = some n`, and when
`job_name` is absent the body is entirely empty — the key is omitted, not sent as a null
or empty value (api.py lines 95–98). -/
theorem update_job_name_field_iff_provided (auth : Creds) (job_url : String)
    (job_name : Option String) :
    (match update_job_request auth job_url job_name with
      | .patch u a d => u = job_url ∧ a = auth ∧ d.lookup "entry_job[name]" = job_name
      | _ => False) ∧
    update_job_body none = [] := by
  cases job_name <;> simp [update_job_request, update_job_body]

/-! ## Claim theorems: downloads and results -/

/-- **C3.** When no representation of the job matches the requested content type,
`download_results` raises the `ValueError` whose message enumerates exactly the content
types of all representations present, in source order (api.py lines 140–142); when at
least one matches, it downloads the first matching representation in source order
(api.py lines 136–138). -/
theorem download_results_first_match_or_enumerating_error (auth : Creds) (job : Job)
    (ct dir : String) (http : Req → HttpResp) (fs : FS) :
    ((∀ r ∈ job.result_representations, r.content_type ≠ ct) →
      download_results auth job ct dir http fs =
        { fs := fs, trace := [],
          result := .error (.valueError (notFoundMessage ct
            (job.result_representations.map (fun x => x.content_type)))) }) ∧
    (∀ r, job.result_representations.find? (fun x => x.content_type == ct) = some r →
      download_results auth job ct dir http fs =
        { fs := (download_representation auth r dir http fs).fs,
          trace := (download_representation auth r dir http fs).trace,
          result := (download_representation auth r dir http fs).result.mapError
            DRError.httpError }) := by
  constructor
  · intro hnone
    have hfind : findRep job.result_representations ct = none := by
      rw [findRep_eq_find]
      apply List.find?_eq_none.mpr
      intro x hx
      simpa using hnone x hx
    simp [download_results, hfind]
  · intro r hr
    have hfind : findRep job.result_representations ct = some r := by
      rw [findRep_eq_find]; exact hr
    simp [download_results, hfind]

theorem download_results_first_match_or_enumerating_error_witness :
    (download_results creds0 { result_representations := [repCsv] } "text/html" "."
        httpOk [] =
      { fs := [], trace := [],
        result := .error (.valueError (notFoundMessage "text/html"
          (([repCsv] : List Representation).map (fun x => x.content_type)))) }) ∧
    (download_results creds0 { result_representations := [repCsv, repSes1] }
        "application/csv" "." httpOk [] =
      { fs := (download_representation creds0 repCsv "." httpOk []).fs,
        trace := (download_representation creds0 repCsv "." httpOk []).trace,
        result := (download_representation creds0 repCsv "." httpOk []).result.mapError
          DRError.httpError }) :=
  ⟨(download_results_first_match_or_enumerating_error creds0
      { result_representations := [repCsv] } "text/html" "." httpOk []).1 (by decide),
   (download_results_first_match_or_enumerating_error creds0
      { result_representations := [repCsv, repSes1] } "application/csv" "." httpOk []).2
      repCsv (by rfl)⟩

/-- **C4.** When no representation of the job has the session-metrics content type,
`results` returns the initial empty list `metrics = []` and raises nothing (api.py
lines 152–160) — asymmetric with `download_results`, which for the same job and content
type raises the enumerating `ValueError`. -/
theorem results_empty_when_no_session_match (auth : Creds) (job : Job) (dir : String)
    (http : Req → HttpResp) (fs : FS)
    (h : ∀ r ∈ job.result_representations, r.content_type ≠ sessionCT) :
    results auth job http = ([], .ok .emptyList) ∧
    (download_results auth job sessionCT dir http fs).result =
      .error (.valueError (notFoundMessage sessionCT
        (job.result_representations.map (fun x => x.content_type)))) := by
  have hfilter :
      job.result_representations.filter (fun r => r.content_type == sessionCT) = [] := by
    apply List.filter_eq_nil_iff.mpr
    intro x hx
    simpa using h x hx
  constructor
  · have hall : ∀ r ∈ job.result_representations.filter
        (fun r => r.content_type == sessionCT),
        isHttpError (http (Req.get r.media auth)).status = false := by
      rw [hfilter]; intro x hx; simp at hx
    rw [results, resultsLoop_all_ok auth http job.result_representations .emptyList hall,
      hfilter]
    simp
  · have hfind : findRep job.result_representations sessionCT = none := by
      rw [findRep_eq_find]
      apply List.find?_eq_none.mpr
      intro x hx
      simpa using h x hx
    simp [download_results, hfind]

theorem results_empty_when_no_session_match_witness :
    results creds0 { result_representations := [repCsv] } httpOk = ([], .ok .emptyList) ∧
    (download_results creds0 { result_representations := [repCsv] } sessionCT "."
        httpOk []).result =
      .error (.valueError (notFoundMessage sessionCT
        (([repCsv] : List Representation).map (fun x => x.content_type)))) :=
  results_empty_when_no_session_match creds0 { result_representations := [repCsv] } "."
    httpOk [] (by decide)

/-- **C9.** `download_representation` opens — creating or truncating — the local file
`output_dir/file_name` before issuing the authenticated GET to the media URL; when that
GET returns a failing status (4xx/5xx, the statuses `raise_for_status` raises for) the
error propagates, and the local filesystem already holds a zero-byte file at that path
(api.py lines 113–120). -/
theorem download_representation_truncates_before_get (auth : Creds)
    (rep : Representation) (dir : String) (http : Req → HttpResp) (fs : FS)
    (h : isHttpError (http (Req.get rep.media auth)).status = true) :
    download_representation auth rep dir http fs =
      { fs := fsWrite fs (osPathJoin dir rep.file_name) "",
        trace := [.openWrite (osPathJoin dir rep.file_name),
          .http (Req.get rep.media auth), .closeFile (osPathJoin dir rep.file_name)],
        result := .error (http (Req.get rep.media auth)).status } ∧
    fsRead (download_representation auth rep dir http fs).fs
        (osPathJoin dir rep.file_name) = some "" := by
  have herr : raiseForStatus (http (Req.get rep.media auth)) =
      .error (http (Req.get rep.media auth)).status := by
    simp [raiseForStatus, h]
  constructor
  · simp [download_representation, herr]
  · simp [download_representation, herr, fsRead, fsWrite]

theorem download_representation_truncates_before_get_witness :
    download_representation creds0 repCsv "." http503 [] =
      { fs := fsWrite [] (osPathJoin "." repCsv.file_name) "",
        trace := [.openWrite (osPathJoin "." repCsv.file_name),
          .http (Req.get repCsv.media creds0),
          .closeFile (osPathJoin "." repCsv.file_name)],
        result := .error (http503 (Req.get repCsv.media creds0)).status } ∧
    fsRead (download_representation creds0 repCsv "." http503 []).fs
        (osPathJoin "." repCsv.file_name) = some "" :=
  download_representation_truncates_before_get creds0 repCsv "." http503 [] (by decide)

/-- **C10.** When the job has more than one session-metrics representation and every
matching GET succeeds, `results` issues one authenticated GET per matching
representation, in source order, and returns the parsed body of the last match,
discarding the bodies of the earlier ones (the loop of api.py lines 154–159 overwrites
`metrics` on every match). -/
theorem results_returns_last_of_multiple_matches (auth : Creds) (job : Job)
    (http : Req → HttpResp) (l : Representation)
    (hmany : 1 < (sessionMatches job).length)
    (hok : ∀ r ∈ sessionMatches job,
        isHttpError (http (Req.get r.media auth)).status = false)
    (hlast : (sessionMatches job).getLast? = some l) :
    results auth job http =
      ((sessionMatches job).map (fun r => Event.http (Req.get r.media auth)),
       .ok (.json (http (Req.get l.media auth)).body)) := by
  have hok' : ∀ r ∈ job.result_representations.filter
      (fun r => r.content_type == sessionCT),
      isHttpError (http (Req.get r.media auth)).status = false := hok
  have hlast' : (job.result_representations.filter
      (fun r => r.content_type == sessionCT)).getLast? = some l := hlast
  rw [results, resultsLoop_all_ok auth http job.result_representations .emptyList hok',
    hlast']
  rfl

theorem results_returns_last_of_multiple_matches_witness :
    results creds0 { result_representations := [repSes1, repCsv, repSes2] } httpByUrl =
      ((sessionMatches { result_representations := [repSes1, repCsv, repSes2] }).map
          (fun r => Event.http (Req.get r.media creds0)),
       .ok (.json (httpByUrl (Req.get repSes2.media creds0)).body)) :=
  results_returns_last_of_multiple_matches creds0
    { result_representations := [repSes1, repCsv, repSes2] } httpByUrl repSes2
    (by decide) (by decide) (by decide)

/-! ## Claim theorems: annotations -/

/-- **C5.** On a 3-item input whose first item's POST succeeds and whose second item's
POST fails, `add_annotations` issues exactly the POST for item 1 and a single POST for
item 2, propagates the failing status, never attempts item 3, and issues nothing that
would roll item 1 back (api.py lines 179–183). -/
theorem add_annotations_stop_at_first_failure (auth : Creds) (entry : Entry)
    (http : Req → HttpResp) (a1 a2 a3 : AnnotationItem)
    (h1 : isHttpError (http (annotationPost auth entry a1)).status = false)
    (h2 : isHttpError (http (annotationPost auth entry a2)).status = true) :
    add_annotations auth entry http [a1, a2, a3] =
      ([.http (annotationPost auth entry a1), .http (annotationPost auth entry a2)],
       .error (http (annotationPost auth entry a2)).status) := by
  simp [add_annotations, add_annotation, raiseForStatus, h1, h2]

theorem add_annotations_stop_at_first_failure_witness :
    add_annotations creds0 entry0 httpFailSecond [item1, item2, item3] =
      ([.http (annotationPost creds0 entry0 item1),
        .http (annotationPost creds0 entry0 item2)],
       .error (httpFailSecond (annotationPost creds0 entry0 item2)).status) :=
  add_annotations_stop_at_first_failure creds0 entry0 httpFailSecond item1 item2 item3
    (by decide) (by decide)

/-- **C6.** `delete_annotation` lists the entry's annotations with one authenticated GET
and then — provided each matching DELETE is accepted — issues one authenticated DELETE
to the `self` URL of every listed annotation whose `source` and `key` both match, in
order; the no-match instance of this equality is a plain no-op: the trace holds the
listing GET only and no error is raised (api.py lines 185–191). -/
theorem delete_all_matching_and_noop_when_none (auth : Creds) (entry : Entry)
    (listed : List AnnotationRec) (source key : String) (http : Req → HttpResp)
    (hok : ∀ a ∈ listed.filter (fun a => a.source == source && a.key == key),
        isHttpError (http (Req.delete a.self auth)).status = false) :
    delete_annotation auth entry listed source key http =
      (.http (Req.get entry.annotations auth) ::
        (listed.filter (fun a => a.source == source && a.key == key)).map
          (fun a => Event.http (Req.delete a.self auth)),
       .ok ()) := by
  rw [ delete_annotation, delete_loop_all_ok auth source key http listed hok]

theorem delete_all_matching_and_noop_when_none_witness :
    ( delete_annotation creds0 entry0 [annA, annB, annC] "src" "k" httpOk =
      (.http (Req.get entry0.annotations creds0) ::
        (([annA, annB, annC] : List AnnotationRec).filter
            (fun a => a.source == "src" && a.key == "k")).map
          (fun a => Event.http (Req.delete a.self creds0)),
       .ok ())) ∧
    ( delete_annotation creds0 entry0 [annA, annB, annC] "nobody" "k" httpOk =
      (.http (Req.get entry0.annotations creds0) ::
        (([annA, annB, annC] : List AnnotationRec).filter
            (fun a => a.source == "nobody" && a.key == "k")).map
          (fun a => Event.http (Req.delete a.self creds0)),
       .ok ())) :=
  ⟨delete_all_matching_and_noop_when_none creds0 entry0 [annA, annB, annC] "src" "k"
      httpOk (by decide),
   delete_all_matching_and_noop_when_none creds0 entry0 [annA, annB, annC] "nobody" "k"
      httpOk (by decide)⟩

/-! ## Claim theorems: upload file handles -/

/-- **C8 (counterexample).** The claim says every upload operation releases its file
handle after the request, including on failure.  `add_representation` against an oracle
answering 503 propagates the error, yet its trace contains no close of the handle it
opened: api.py line 208 opens the file inline in the `files` dict with no `with` block
and no `close()`. -/
theorem add_representation_never_closes_handle :
    (add_representation creds0 entry0 "v.mp4" "video/mp4" http503).2 = .error 503 ∧
    Event.closeFile "v.mp4" ∉
      (add_representation creds0 entry0 "v.mp4" "video/mp4" http503).1 := by
  exact ⟨rfl, by decide⟩

/-- **C8 (amended).** `create_job` opens its file handle, issues the one multipart POST,
and closes the handle immediately afterwards — also when the request fails, since the
`with` block closes on an exception (api.py lines 66–71).  `add_representation` and
`update_representation`, by contrast, never close the handle they open, on success or
failure: release is left to the garbage collector (api.py lines 208 and 226). -/
theorem upload_file_handle_scopes (auth : Creds)
    (job_url media_path job_name mimetype : String)
    (extra_params : List (String × String)) (entry : Entry) (rep : Representation)
    (http : Req → HttpResp) :
    (create_job auth job_url media_path job_name extra_params http).1 =
      [Event.openRead media_path,
       Event.http (Req.postMultipart job_url auth
         (create_job_files media_path job_name) extra_params),
       Event.closeFile media_path] ∧
    Event.closeFile media_path ∉
      (add_representation auth entry media_path mimetype http).1 ∧
    Event.closeFile media_path ∉
      (update_representation auth rep media_path mimetype http).1 := by
  refine ⟨rfl, ?_, ?_⟩ <;> simp [add_representation, update_representation]

end Affectiva
